import Mathlib

/-!
Verification development for the gytennis reservation client
(`goyang_client.py`): a shallow embedding of the pure/decidable parts of
the workflow orchestrator — HTML order-id extraction, the HTTP status
check, the audit-log curl serializer, the form-body encoder, the payment
trigger dispatch, and the orchestrator's exit-status control flow —
together with theorems settling the specification's claims.
-/

set_option autoImplicit false

namespace Goyang

instance {ε α : Type} [DecidableEq ε] [DecidableEq α] : DecidableEq (Except ε α)
  | .error e, .error f => decidable_of_iff (e = f) (by simp)
  | .error _, .ok _ => isFalse (fun h => by cases h)
  | .ok _, .error _ => isFalse (fun h => by cases h)
  | .ok a, .ok b => decidable_of_iff (a = b) (by simp)

/-- `s.startswith(prefixStr)` (Python) / `s.startsWith` (JavaScript),
embedded as character-list prefix testing. -/
def startsWithStr (s pat : String) : Bool :=
  pat.data.isPrefixOf s.data

/-- `str.lower()` / `String.prototype.toLowerCase`, character by
character (ASCII case mapping; every name the program compares against
is ASCII, and HTML tag/attribute names are ASCII-lowercased by the
parser itself). -/
def strLower (s : String) : String :=
  String.mk (s.data.map Char.toLower)

/-- `str.upper()`, character by character (ASCII case mapping). -/
def strUpper (s : String) : String :=
  String.mk (s.data.map Char.toUpper)

/-! ## HTML start-tag stream and the order-id extractor

Python's `HTMLParser` delivers each start tag to `handle_starttag` as a
tag-name string plus a list of `(attribute-name, optional value)` pairs,
in document order (duplicate attributes are delivered as-is).  We embed
an HTML document at that level: the stream of start-tag events. -/

/-- Attribute list as delivered to `handle_starttag`: name, optional value. -/
abbrev Attrs := List (String × Option String)

/-- One start-tag event: tag name and its attributes. -/
abbrev Tag := String × Attrs

/-- A document, as the stream of start-tag events seen by the parser. -/
abbrev Doc := List Tag

/-- `{k.lower(): v for k, v in attrs}.get key`: the value of the last
attribute whose lowercased name equals `key` (later duplicates overwrite
earlier ones in a Python dict comprehension), or `none` when absent. -/
def normGet (attrs : Attrs) (key : String) : Option (Option String) :=
  ((attrs.filter (fun kv => strLower kv.1 = key)).getLast?).map Prod.snd

/-- `OrderIdParser.handle_starttag`: ignore non-`input` tags (tag-name
match is case-insensitive); on an `input` whose normalized `name`
attribute equals `"ordr_idxx"`, overwrite the stored order id with the
normalized `value` attribute (which may be absent). -/
def handle_starttag (state : Option String) (t : Tag) : Option String :=
  if strLower t.1 ≠ "input" then state
  else if normGet t.2 "name" = some (some "ordr_idxx") then
    (normGet t.2 "value").join
  else state

/-- The parser state after feeding the whole document: `OrderIdParser`
starts with `order_id = None` and folds `handle_starttag` over the
start-tag events. -/
def parseOrderId (doc : Doc) : Option String :=
  doc.foldl handle_starttag none

/-- The error message raised by `extract_order_id`. -/
def fieldNotFoundMsg : String :=
  "Failed to locate ordr_idxx hidden input in reservation response."

/-- `extract_order_id`: feed the document to `OrderIdParser`; if the
stored order id is falsy (`None` or the empty string) raise
`ValueError` (the `FieldNotFound` error), else return it. -/
def extract_order_id (doc : Doc) : Except String String :=
  match parseOrderId doc with
  | none => .error fieldNotFoundMsg
  | some v => if v = "" then .error fieldNotFoundMsg else .ok v

/-- Whether a start-tag event is an `input` named `ordr_idxx`
(the match condition of `handle_starttag`). -/
def isOrdrInput (t : Tag) : Bool :=
  strLower t.1 == "input" && normGet t.2 "name" == some (some "ordr_idxx")

/-- The sequence of (optional) `value` attributes of the `ordr_idxx`
inputs of a document, in document order. -/
def ordrValues (doc : Doc) : List (Option String) :=
  doc.filterMap (fun t =>
    if isOrdrInput t then some ((normGet t.2 "value").join) else none)

/-! ## HTTP status check -/

/-- `ensure_success`: raises (returns `.error`) when
`not status or int(status) >= 400`; a missing status and the Python-falsy
status `0` both trip the first disjunct. -/
def ensure_success (step : String) (status : Option Int) : Except String Unit :=
  match status with
  | none => .error (step ++ " returned HTTP status None.")
  | some s =>
    if s == 0 || 400 ≤ s then
      .error (step ++ " returned HTTP status " ++ toString s ++ ".")
    else .ok ()

/-! ## Audit-log curl serialization -/

/-- The single-quote character, as used by the shell quoting helper. -/
def sqChar : Char := Char.ofNat 39

/-- The single-quote character as a string. -/
def sq : String := String.singleton sqChar

/-- `str.replace` for a one-character pattern (the only use in the
source: replacing each single quote). -/
def replaceChar (s : String) (c : Char) (rep : String) : String :=
  String.mk (s.data.flatMap (fun d => if d = c then rep.data else [d]))

/-- `quote_for_shell`: wrap in single quotes, escaping embedded single
quotes with the `quote-doublequote-quote-doublequote-quote` idiom. -/
def quote_for_shell (value : String) : String :=
  sq ++ replaceChar value sqChar (sq ++ "\"" ++ sq ++ "\"" ++ sq) ++ sq

/-- The header arguments emitted by `build_curl_command`: headers with a
`None` value are skipped, as is any header whose lowercased name is
`host` or `content-length`; the rest become `-H 'name: value'` pairs in
input order. -/
def curlHeaderArgs (headers : List (String × Option String)) : List String :=
  headers.foldr (fun kv acc =>
    match kv.2 with
    | none => acc
    | some v =>
      if strLower kv.1 = "host" ∨ strLower kv.1 = "content-length" then acc
      else "-H" :: quote_for_shell (kv.1 ++ ": " ++ v) :: acc) []

/-- `build_curl_command`: `curl`, then `-X METHOD` unless the uppercased
method is `GET`, then the surviving headers, then `--data-binary BODY`
when the body is truthy (present and non-empty), then the quoted URL,
joined with single spaces. -/
def build_curl_command (method url : String)
    (headers : List (String × Option String)) (body : Option String) : String :=
  let upper := strUpper method
  let parts : List String :=
    ["curl"]
      ++ (if upper ≠ "GET" then ["-X", upper] else [])
      ++ curlHeaderArgs headers
      ++ (match body with
          | some b => if b ≠ "" then ["--data-binary", quote_for_shell b] else []
          | none => [])
      ++ [quote_for_shell url]
  " ".intercalate parts

/-! ## Form-body serialization (`urllib.parse.urlencode` with `doseq=True`)

`browser_fetch` does `payload = {key: str(value) for key, value in
data.items()}` and then `urllib.parse.urlencode(payload, doseq=True)`.
We embed `quote_plus` byte-for-byte over the UTF-8 encoding (Python's
default), and `urlencode`'s `doseq` handling of both string and
sequence values, so that the effect of the `str()` coercion is visible. -/

/-- UTF-8 encoding of one code point (Python strings are percent-encoded
after UTF-8 encoding). -/
def utf8Bytes (c : Char) : List Nat :=
  let n := c.toNat
  if n < 0x80 then [n]
  else if n < 0x800 then
    [0xC0 + n / 0x40, 0x80 + n % 0x40]
  else if n < 0x10000 then
    [0xE0 + n / 0x1000, 0x80 + (n / 0x40) % 0x40, 0x80 + n % 0x40]
  else
    [0xF0 + n / 0x40000, 0x80 + (n / 0x1000) % 0x40, 0x80 + (n / 0x40) % 0x40,
      0x80 + n % 0x40]

/-- Uppercase hexadecimal digit, as produced by Python's `quote`. -/
def hexUpper (n : Nat) : Char :=
  if n < 10 then Char.ofNat (48 + n) else Char.ofNat (55 + n)

/-- Python's always-safe byte set for `quote`: ASCII letters, digits,
and `_`, `.`, `-`, `~`. -/
def alwaysSafe (b : Nat) : Bool :=
  (65 ≤ b && b ≤ 90) || (97 ≤ b && b ≤ 122) || (48 ≤ b && b ≤ 57) ||
    b == 95 || b == 46 || b == 45 || b == 126

/-- `quote_plus` on one byte: safe bytes pass through, a space becomes
`+`, everything else becomes `%XX` with uppercase hex. -/
def quoteByte (b : Nat) : List Char :=
  if alwaysSafe b then [Char.ofNat b]
  else if b == 32 then ['+']
  else ['%', hexUpper (b / 16), hexUpper (b % 16)]

/-- `urllib.parse.quote_plus` with default arguments. -/
def quote_plus (s : String) : String :=
  String.mk ((s.data.flatMap utf8Bytes).flatMap quoteByte)

/-- A value as seen by `urlencode` under `doseq=True`: a string is
percent-encoded into a single `key=value` pair, a sequence is expanded
into one `key=value` pair per element, in order. -/
inductive UrlVal where
  | str (s : String)
  | seq (xs : List String)
deriving DecidableEq

/-- `urllib.parse.urlencode(query, doseq=True)` over an ordered
association list. -/
def urlencodeDoseq (query : List (String × UrlVal)) : String :=
  "&".intercalate (query.foldr (fun kv acc =>
    match kv.2 with
    | .str v => (quote_plus kv.1 ++ "=" ++ quote_plus v) :: acc
    | .seq xs => xs.map (fun x => quote_plus kv.1 ++ "=" ++ quote_plus x) ++ acc) [])

/-- A Python value supplied in `browser_fetch`'s `data` mapping: a plain
string, or a list of strings (an array-style field). -/
inductive PyVal where
  | str (s : String)
  | list (xs : List String)
deriving DecidableEq

/-- Python `str()` of a `PyVal`: strings unchanged; a list renders as its
`repr`, `['a', 'b']` (modelled for element strings without quotes or
escapes, which is exact for such elements). -/
def pyStr : PyVal → String
  | .str s => s
  | .list xs => "[" ++ ", ".intercalate (xs.map (fun s => sq ++ s ++ sq)) ++ "]"

/-- The body string built by `browser_fetch`: every value is coerced
with `str()` first, then the result is url-encoded with `doseq=True`. -/
def browser_fetch_body (data : List (String × PyVal)) : String :=
  urlencodeDoseq (data.map (fun kv => (kv.1, UrlVal.str (pyStr kv.2))))

/-! ## Browser-side abort timer -/

/-- Python `int()` on an exact numeric value: truncation toward zero. -/
def pyInt (q : ℚ) : ℤ :=
  if 0 ≤ q then ⌊q⌋ else ⌈q⌉

/-- `timeout_ms = max(int(timeout * 1000), 1000)` from `browser_fetch`
(the requested timeout modelled as an exact rational number of
seconds). -/
def browserTimeoutMs (timeout : ℚ) : ℤ :=
  max (pyInt (timeout * 1000)) 1000

/-! ## Payment-trigger dispatch

The in-page script probed by `main` (lines 866–896): a single-element
candidate array holding the first *defined* global among `fnPay`,
`fn_pay`, `pay`; if one is defined it is called — an exception yields an
`"error:..."` result.  Otherwise the clickable elements are scanned in
DOM order for the first whose `onclick` text contains `"pay"` or
`"payment"` case-insensitively; it is clicked — an exception again
yields `"error:..."`.  With no candidate at all the result is
`"notfound"`. -/

/-- Substring containment on character lists (JavaScript
`String.prototype.includes`). -/
def listContainsSub (needle : List Char) : List Char → Bool
  | [] => needle == []
  | c :: t => needle.isPrefixOf (c :: t) || listContainsSub needle t

/-- `hay.includes(needle)` for strings. -/
def strContains (hay needle : String) : Bool :=
  listContainsSub needle.data hay.data

/-- The rendered reservation page, as the trigger script observes it:
the global functions that are defined (name, and whether calling throws),
and the clickable elements in DOM order (`onclick` attribute text if
any, and whether clicking throws). -/
structure TriggerPage where
  funcs : List (String × Bool)
  elements : List (Option String × Bool)
deriving DecidableEq

/-- The first defined global among `fnPay`, `fn_pay`, `pay` — the single
candidate produced by the nested ternary in the script. -/
def selectedAlias (p : TriggerPage) : Option (String × Bool) :=
  (p.funcs.find? (fun f => f.1 == "fnPay")).orElse (fun _ =>
    (p.funcs.find? (fun f => f.1 == "fn_pay")).orElse (fun _ =>
      p.funcs.find? (fun f => f.1 == "pay")))

/-- Whether a clickable element's `onclick` text (empty when absent)
contains `"pay"` or `"payment"` case-insensitively. -/
def elemMatches (e : Option String × Bool) : Bool :=
  let handler := strLower (e.1.getD "")
  strContains handler "pay" || strContains handler "payment"

/-- The first clickable element whose handler text matches. -/
def matchingElem (p : TriggerPage) : Option (Option String × Bool) :=
  p.elements.find? elemMatches

/-- The trigger script's result string: `"function"`, `"click"`,
`"error:..."`, or `"notfound"`. -/
def triggerDispatch (p : TriggerPage) : String :=
  match selectedAlias p with
  | some f => if f.2 then "error:fn" else "function"
  | none =>
    match matchingElem p with
    | some e => if e.2 then "error:click" else "click"
    | none => "notfound"

/-! ## Orchestrator exit status (`main`, lines 770–954)

The effectful stages are abstracted as an outcome environment; the pure
checks (`ensure_success`, `extract_order_id`, the trigger dispatch) are
the embedded functions above.  `mainRun` mirrors `main`'s control flow:
any exception from launch, the two fetch/status checks, order-id
extraction, or the trigger dispatch reaches the top-level handler and
returns 1; the `TimeoutError` from `wait_for_payment_window` is caught
where it is raised (lines 905–914), logged, and the flow continues to
the final `return 0`. -/

/-- The workflow stages, recorded as they are entered. -/
inductive Stage where
  | launch
  | authenticate
  | reserve
  | extractOrder
  | triggerPayment
  | awaitPopup
  | awaitConfirmation
deriving DecidableEq

/-- Outcomes of the effectful stages of one run: whether the browser
session launched, each fetch's outcome (`.error` = fetch raised;
`.ok` = the result dict, carrying the optional status and, for the
reservation, the response HTML), the rendered page the trigger script
sees, whether the popup wait found a new window before its deadline,
and the `skip_order_wait` flag. -/
structure RunEnv where
  launchOk : Bool
  loginResult : Except String (Option Int)
  reservationResult : Except String (Option Int × Doc)
  page : TriggerPage
  popupFound : Bool
  skipOrderWait : Bool

/-- `main`'s exit status together with the trace of stages entered. -/
def mainRun (env : RunEnv) : Int × List Stage :=
  let t0 : List Stage := [.launch]
  if !env.launchOk then (1, t0) else
  let t1 := t0 ++ [.authenticate]
  match env.loginResult with
  | .error _ => (1, t1)
  | .ok loginStatus =>
    match ensure_success "Login request" loginStatus with
    | .error _ => (1, t1)
    | .ok _ =>
      let t2 := t1 ++ [.reserve]
      match env.reservationResult with
      | .error _ => (1, t2)
      | .ok rr =>
        match ensure_success "Reservation request" rr.1 with
        | .error _ => (1, t2)
        | .ok _ =>
          let t3 := t2 ++ [.extractOrder]
          match extract_order_id rr.2 with
          | .error _ => (1, t3)
          | .ok _ =>
            let t4 := t3 ++ [.triggerPayment]
            let tr := triggerDispatch env.page
            if startsWithStr tr "error:" then (1, t4)
            else if tr = "notfound" then (1, t4)
            else
              let t5 := t4 ++ [.awaitPopup]
              let t6 := if env.skipOrderWait then t5 else t5 ++ [.awaitConfirmation]
              (0, t6)

/-! ## Lemmas about the order-id extractor -/

/-- `handle_starttag` in terms of the match predicate: a matching
`ordr_idxx` input overwrites the state with its (optional) value; every
other tag leaves it unchanged. -/
theorem handle_starttag_eq (s : Option String) (t : Tag) :
    handle_starttag s t =
      if isOrdrInput t then (normGet t.2 "value").join else s := by
  by_cases h1 : t.1.toLower = "input" <;>
    by_cases h2 : normGet t.2 "name" = some (some "ordr_idxx") <;>
      simp [handle_starttag, isOrdrInput, h1, h2]

/-- `getD` after consing onto the list whose last element we take:
the head becomes the new fallback. -/
theorem getLast?_getD_cons {α : Type} (l : List α) (a d : α) :
    ((a :: l).getLast?).getD d = (l.getLast?).getD a := by
  induction l generalizing a d with
  | nil => rfl
  | cons b l ih =>
    rw [List.getLast?_cons_cons]
    rw [ih b d, ih b a]

/-- Folding `handle_starttag` from any initial state yields the value of
the last `ordr_idxx` input, with the initial state as fallback. -/
theorem foldl_handle (doc : Doc) :
    ∀ init : Option String,
      doc.foldl handle_starttag init = ((ordrValues doc).getLast?).getD init := by
  induction doc with
  | nil => intro init; rfl
  | cons t rest ih =>
    intro init
    rw [List.foldl_cons, ih (handle_starttag init t), handle_starttag_eq]
    by_cases h : isOrdrInput t
    · simp [ordrValues, List.filterMap_cons, h, getLast?_getD_cons]
    · simp [ordrValues, List.filterMap_cons, h]

/-- The parser state after the whole document is the last `ordr_idxx`
value, or `none` when there is no such input. -/
theorem parseOrderId_eq (doc : Doc) :
    parseOrderId doc = ((ordrValues doc).getLast?).getD none :=
  foldl_handle doc none

/-- `ordrValues` distributes over append. -/
theorem ordrValues_append (a b : Doc) :
    ordrValues (a ++ b) = ordrValues a ++ ordrValues b :=
  List.filterMap_append a b _

/-- A document whose `ordr_idxx` inputs all match and whose values end
in a given nonempty value: the extractor returns that value. -/
theorem extract_of_getLast (doc : Doc) (v : String)
    (hl : (ordrValues doc).getLast? = some (some v)) (hv : v ≠ "") :
    extract_order_id doc = .ok v := by
  unfold extract_order_id
  rw [parseOrderId_eq, hl]
  simp [hv]

/-- A document none of whose tags is an `ordr_idxx` input contributes no
values. -/
theorem ordrValues_no_match (doc : Doc) (h : ∀ t ∈ doc, isOrdrInput t = false) :
    ordrValues doc = [] :=
  List.filterMap_eq_nil_iff.mpr (fun t ht => by simp [h t ht])

/-- An `ordr_idxx` input at the head contributes its value first. -/
theorem ordrValues_cons_match (t : Tag) (rest : Doc) (h : isOrdrInput t = true) :
    ordrValues (t :: rest) = (normGet t.2 "value").join :: ordrValues rest := by
  simp [ordrValues, List.filterMap_cons, h]

/-- A non-matching tag at the head contributes nothing. -/
theorem ordrValues_cons_no_match (t : Tag) (rest : Doc) (h : isOrdrInput t = false) :
    ordrValues (t :: rest) = ordrValues rest := by
  simp [ordrValues, List.filterMap_cons, h]

/-- C2, counterexample: a document that does contain
`<input name="ordr_idxx" value="ABC123">` but holds a second `ordr_idxx`
input later; extraction returns the later value `"XYZ"`, not
`"ABC123"`. -/
theorem extract_order_id_not_first_match :
    ("input", [("name", some "ordr_idxx"), ("value", some "ABC123")]) ∈
      ([("input", [("name", some "ordr_idxx"), ("value", some "ABC123")]),
        ("input", [("name", some "ordr_idxx"), ("value", some "XYZ")])] : Doc) ∧
    extract_order_id
      [("input", [("name", some "ordr_idxx"), ("value", some "ABC123")]),
        ("input", [("name", some "ordr_idxx"), ("value", some "XYZ")])] = .ok "XYZ" ∧
    extract_order_id
      [("input", [("name", some "ordr_idxx"), ("value", some "ABC123")]),
        ("input", [("name", some "ordr_idxx"), ("value", some "XYZ")])] ≠ .ok "ABC123" := by
  refine ⟨by decide, by decide, by decide⟩

/-- C2, amended: for every document containing an input tag (any
tag-name letter case) whose normalized attributes give `name`
`"ordr_idxx"` and `value` `"ABC123"`, *and no later `ordr_idxx` input*,
`extract_order_id` returns `"ABC123"` — regardless of attribute-name
case, extra attributes, or position. -/
theorem extract_order_id_finds_value (pre post : Doc) (tag : String) (attrs : Attrs)
    (h1 : strLower tag = "input")
    (h2 : normGet attrs "name" = some (some "ordr_idxx"))
    (h3 : normGet attrs "value" = some (some "ABC123"))
    (h4 : ∀ t ∈ post, isOrdrInput t = false) :
    extract_order_id (pre ++ (tag, attrs) :: post) = .ok "ABC123" := by
  have hm : isOrdrInput (tag, attrs) = true := by simp [isOrdrInput, h1, h2]
  apply extract_of_getLast _ _ _ (by decide)
  rw [ordrValues_append, ordrValues_cons_match _ _ hm, ordrValues_no_match post h4]
  simp [h3, List.getLast?_concat]

/-- C2 witness: mixed tag-name and attribute-name case plus extra
attributes, extraction still returns `"ABC123"`. -/
theorem extract_order_id_finds_value_witness :
    extract_order_id
      [("div", []),
       ("INPUT", [("TYPE", some "hidden"), ("NAME", some "ordr_idxx"),
                  ("Value", some "ABC123"), ("disabled", none)]),
       ("a", [("onclick", some "fnPay()")])] = .ok "ABC123" :=
  extract_order_id_finds_value [("div", [])]
    [("a", [("onclick", some "fnPay()")])]
    "INPUT"
    [("TYPE", some "hidden"), ("NAME", some "ordr_idxx"),
     ("Value", some "ABC123"), ("disabled", none)]
    (by decide) (by decide) (by decide) (by decide)

/-- C8: when every `ordr_idxx` input of the document has an empty or
absent `value`, extraction raises the `FieldNotFound` error — an empty
extracted value is treated exactly like a missing field. -/
theorem extract_order_id_empty_value_raises (doc : Doc)
    (h : ∀ t ∈ doc, isOrdrInput t = true →
      (normGet t.2 "value").join = none ∨ (normGet t.2 "value").join = some "") :
    extract_order_id doc = .error fieldNotFoundMsg := by
  have hvals : ∀ v ∈ ordrValues doc, v = none ∨ v = some "" := by
    intro v hv
    obtain ⟨t, ht, hf⟩ := List.mem_filterMap.mp hv
    by_cases hm : isOrdrInput t
    · simp only [hm, if_pos, ite_true, Option.some.injEq] at hf
      rcases h t ht hm with h0 | h0 <;> rw [h0] at hf
      · exact Or.inl hf.symm
      · exact Or.inr hf.symm
    · simp [hm] at hf
  unfold extract_order_id
  rw [parseOrderId_eq]
  cases hl : (ordrValues doc).getLast? with
  | none => rfl
  | some v =>
    have hne : ordrValues doc ≠ [] := by
      intro hempty
      rw [hempty] at hl
      cases hl
    have hv : v ∈ ordrValues doc := by
      rw [List.getLast?_eq_getLast _ hne] at hl
      cases hl
      exact List.getLast_mem hne
    rcases hvals v hv with h0 | h0 <;> rw [h0] <;> rfl

/-- C8 witness: one `ordr_idxx` input with an empty value and one with
no value attribute at all; extraction fails. -/
theorem extract_order_id_empty_value_raises_witness :
    extract_order_id
      [("input", [("name", some "ordr_idxx"), ("value", some "")]),
       ("input", [("name", some "ordr_idxx")])] = .error fieldNotFoundMsg :=
  extract_order_id_empty_value_raises
    [("input", [("name", some "ordr_idxx"), ("value", some "")]),
     ("input", [("name", some "ordr_idxx")])]
    (by decide)

/-- C9: with more than one `ordr_idxx` input carrying non-empty values,
the extractor returns the value of the last one in document order (the
parser overwrites its stored value on every match). -/
theorem extract_order_id_last_wins (pre mid post : Doc) (t1 t2 : Tag) (v1 v2 : String)
    (hm1 : isOrdrInput t1 = true) (hv1 : (normGet t1.2 "value").join = some v1)
    (_hne1 : v1 ≠ "")
    (hm2 : isOrdrInput t2 = true) (hv2 : (normGet t2.2 "value").join = some v2)
    (hne2 : v2 ≠ "")
    (hpost : ∀ t ∈ post, isOrdrInput t = false) :
    extract_order_id (pre ++ t1 :: (mid ++ t2 :: post)) = .ok v2 := by
  apply extract_of_getLast _ _ _ hne2
  rw [ordrValues_append, ordrValues_cons_match _ _ hm1, ordrValues_append,
    ordrValues_cons_match _ _ hm2, ordrValues_no_match post hpost, hv1, hv2]
  rw [show ordrValues pre ++ some v1 :: (ordrValues mid ++ [some v2]) =
    (ordrValues pre ++ some v1 :: ordrValues mid) ++ [some v2] by simp]
  exact List.getLast?_concat _

/-- C9 witness: two non-empty `ordr_idxx` inputs; the second value is
returned. -/
theorem extract_order_id_last_wins_witness :
    extract_order_id
      [("input", [("name", some "ordr_idxx"), ("value", some "FIRST")]),
       ("p", []),
       ("input", [("name", some "ordr_idxx"), ("value", some "SECOND")])] = .ok "SECOND" :=
  extract_order_id_last_wins []
    [("p", [])] []
    ("input", [("name", some "ordr_idxx"), ("value", some "FIRST")])
    ("input", [("name", some "ordr_idxx"), ("value", some "SECOND")])
    "FIRST" "SECOND"
    (by decide) (by decide) (by decide) (by decide) (by decide) (by decide) (by decide)

/-! ## Claims about `ensure_success`, the curl serializer, the body
encoder, and the abort timer -/

/-- C5, counterexample: a result with the present status `0` — below
400 — is nevertheless rejected, because `not status` is true for the
Python-falsy integer `0`. -/
theorem ensure_success_zero_counterexample :
    ensure_success "Login request" (some 0) ≠ .ok () ∧ (0 : Int) < 400 :=
  ⟨by decide, by decide⟩

/-- C5, amended: `ensure_success` returns normally exactly when the
status is present, non-zero, and below 400; it raises when the status is
missing, zero (Python-falsy), or at least 400. -/
theorem ensure_success_ok_iff (step : String) (st : Option Int) :
    ensure_success step st = .ok () ↔ ∃ s, st = some s ∧ s ≠ 0 ∧ s < 400 := by
  cases st with
  | none => simp [ensure_success]
  | some s =>
    by_cases h0 : s = 0
    · simp [ensure_success, h0]
    · by_cases h4 : (400 : Int) ≤ s
      · have : (s == 0 || 400 ≤ s) = true := by
          simp [h4]
        simp only [ensure_success, this, if_pos, ite_true]
        constructor
        · intro h; cases h
        · rintro ⟨s', hs, -, hlt⟩
          cases hs
          omega
      · have : (s == 0 || 400 ≤ s) = false := by
          simp [h0, h4]
        simp only [ensure_success, this, Bool.false_eq_true, if_neg, ite_false]
        constructor
        · intro _
          exact ⟨s, rfl, h0, by omega⟩
        · intro _
          trivial

/-- `curlHeaderArgs` unfolded one step. -/
theorem curlHeaderArgs_cons (kv : String × Option String)
    (rest : List (String × Option String)) :
    curlHeaderArgs (kv :: rest) =
      match kv.2 with
      | none => curlHeaderArgs rest
      | some v =>
        if strLower kv.1 = "host" ∨ strLower kv.1 = "content-length" then
          curlHeaderArgs rest
        else "-H" :: quote_for_shell (kv.1 ++ ": " ++ v) :: curlHeaderArgs rest := rfl

/-- Removing the `host` / `content-length` entries (any case) from the
header map leaves the emitted `-H` arguments unchanged: those entries
are skipped during serialization. -/
theorem curlHeaderArgs_filter (h : List (String × Option String)) :
    curlHeaderArgs (h.filter
      (fun kv => !(strLower kv.1 == "host" || strLower kv.1 == "content-length"))) =
      curlHeaderArgs h := by
  induction h with
  | nil => rfl
  | cons kv rest ih =>
    obtain ⟨k, v⟩ := kv
    cases v <;>
      by_cases h1 : strLower k = "host" <;>
        by_cases h2 : strLower k = "content-length" <;>
          simp [List.filter_cons, h1, h2, curlHeaderArgs_cons] <;>
            simpa using ih

/-- C6: for every method, URL, header mapping, and body, the audit-log
line is unchanged if every header named `host` or `content-length` (in
any letter case) is deleted first — such keys are never serialized. -/
theorem build_curl_command_drops_hop_headers (method url : String)
    (headers : List (String × Option String)) (body : Option String) :
    build_curl_command method url headers body =
      build_curl_command method url
        (headers.filter
          (fun kv => !(strLower kv.1 == "host" || strLower kv.1 == "content-length")))
        body := by
  unfold build_curl_command
  rw [curlHeaderArgs_filter]

/-- C7, counterexample: a key carrying an array-style (list) value is
*not* expanded into repeated `key=value` pairs — the `str()` coercion in
`browser_fetch` runs first, so the body percent-encodes the list's
`repr` under a single key, although `urlencode(..., doseq=True)` itself
would have repeated the key had the list reached it. -/
theorem browser_fetch_body_list_counterexample :
    browser_fetch_body [("k", PyVal.list ["a", "b"])] = "k=%5B%27a%27%2C+%27b%27%5D" ∧
    browser_fetch_body [("k", PyVal.list ["a", "b"])] ≠ "k=a&k=b" ∧
    urlencodeDoseq [("k", UrlVal.seq ["a", "b"])] = "k=a&k=b" :=
  ⟨by decide, by decide, by decide⟩

/-- C7, amended: the body is serialized as
`application/x-www-form-urlencoded` with exactly one `key=value` pair
per input key, in input order, the value being the percent-encoding of
the `str()`-coerced value; array-style values are never expanded into
repeated keys. -/
theorem browser_fetch_body_single_pairs (data : List (String × PyVal)) :
    browser_fetch_body data =
      "&".intercalate
        (data.map (fun kv => quote_plus kv.1 ++ "=" ++ quote_plus (pyStr kv.2))) := by
  unfold browser_fetch_body urlencodeDoseq
  congr 1
  induction data with
  | nil => rfl
  | cons kv rest ih => simp [ih]

/-- C10: the browser-side abort timer equals
`max(floor(timeout * 1000), 1000)` milliseconds (Python's `int()`
truncates toward zero, but truncation and floor agree after the clamp),
so a requested timeout below one second is enforced as exactly one
second. -/
theorem browser_timeout_ms_floor (q : ℚ) :
    browserTimeoutMs q = max ⌊q * 1000⌋ 1000 ∧ (q < 1 → browserTimeoutMs q = 1000) := by
  constructor
  · unfold browserTimeoutMs pyInt
    by_cases h : (0 : ℚ) ≤ q * 1000
    · simp [h]
    · push_neg at h
      have hc : ⌈q * 1000⌉ ≤ 1000 := by
        have h0 : ⌈q * 1000⌉ ≤ 0 := Int.ceil_le.mpr (by push_cast; linarith)
        omega
      have hf : ⌊q * 1000⌋ ≤ 1000 := by
        have h0 : ⌊q * 1000⌋ ≤ 0 := Int.floor_nonpos (le_of_lt h)
        omega
      simp [not_le.mpr h, max_eq_right hc, max_eq_right hf]
  · intro hq
    have hx : q * 1000 < 1000 := by linarith
    unfold browserTimeoutMs pyInt
    by_cases h : (0 : ℚ) ≤ q * 1000
    · have hlt : ⌊q * 1000⌋ < 1000 := Int.floor_lt.mpr (by push_cast; linarith)
      simp [h, max_eq_right (le_of_lt hlt)]
    · push_neg at h
      have hc : ⌈q * 1000⌉ ≤ 1000 := by
        have h0 : ⌈q * 1000⌉ ≤ 0 := Int.ceil_le.mpr (by push_cast; linarith)
        omega
      simp [not_le.mpr h, max_eq_right hc]

/-! ## Claims about the payment-trigger dispatch -/

/-- The dispatch result is always one of five strings. -/
theorem triggerDispatch_forms (p : TriggerPage) :
    triggerDispatch p = "function" ∨ triggerDispatch p = "click" ∨
    triggerDispatch p = "error:fn" ∨ triggerDispatch p = "error:click" ∨
    triggerDispatch p = "notfound" := by
  unfold triggerDispatch
  cases selectedAlias p with
  | some f => cases hf : f.2 <;> simp [hf]
  | none =>
    cases matchingElem p with
    | some e => cases he : e.2 <;> simp [he]
    | none => simp

/-- C4, counterexample: `fnPay` is defined but throws, and a clickable
element with `onclick` containing `pay` exists whose click would
succeed; the dispatch still returns the error result — it does not move
on to the first candidate that executes without an exception, and the
result is outside `{function, click, notfound}`. -/
theorem triggerDispatch_throwing_counterexample :
    triggerDispatch ⟨[("fnPay", true)], [(some "doPay()", false)]⟩ = "error:fn" ∧
    elemMatches (some "doPay()", false) = true ∧
    triggerDispatch ⟨[("fnPay", true)], [(some "doPay()", false)]⟩ ≠ "click" ∧
    triggerDispatch ⟨[("fnPay", true)], [(some "doPay()", false)]⟩ ≠ "function" ∧
    triggerDispatch ⟨[("fnPay", true)], [(some "doPay()", false)]⟩ ≠ "notfound" :=
  ⟨by decide, by decide, by decide, by decide, by decide⟩

/-- C4, amended: the dispatch probes the aliases `fnPay`, `fn_pay`,
`pay` in order and selects the first that is *defined* (absence of an
alias is tolerated); only if none is defined does it select the first
clickable element whose `onclick` text contains `pay`/`payment`
case-insensitively.  The single selected candidate is then executed:
`function`/`click` when it does not throw, an error result (fatal for
the run) when it throws, and `notfound` when there is no candidate at
all. -/
theorem triggerDispatch_contract (p : TriggerPage) :
    (triggerDispatch p = "function" ↔ ∃ f, selectedAlias p = some f ∧ f.2 = false) ∧
    (triggerDispatch p = "click" ↔
      selectedAlias p = none ∧ ∃ e, matchingElem p = some e ∧ e.2 = false) ∧
    (triggerDispatch p = "notfound" ↔
      selectedAlias p = none ∧ matchingElem p = none) ∧
    (∀ g, p.funcs.find? (fun f => f.1 == "fnPay") = none →
      p.funcs.find? (fun f => f.1 == "fn_pay") = some g → selectedAlias p = some g) := by
  refine ⟨?_, ?_, ?_, ?_⟩
  · cases hA : selectedAlias p with
    | some f => cases hf : f.2 <;> simp [triggerDispatch, hA, hf]
    | none =>
      cases hM : matchingElem p with
      | some e => cases he : e.2 <;> simp [triggerDispatch, hA, hM, he]
      | none => simp [triggerDispatch, hA, hM]
  · cases hA : selectedAlias p with
    | some f => cases hf : f.2 <;> simp [triggerDispatch, hA, hf]
    | none =>
      cases hM : matchingElem p with
      | some e => cases he : e.2 <;> simp [triggerDispatch, hA, hM, he]
      | none => simp [triggerDispatch, hA, hM]
  · cases hA : selectedAlias p with
    | some f => cases hf : f.2 <;> simp [triggerDispatch, hA, hf]
    | none =>
      cases hM : matchingElem p with
      | some e => cases he : e.2 <;> simp [triggerDispatch, hA, hM, he]
      | none => simp [triggerDispatch, hA, hM]
  · intro g h1 h2
    simp [selectedAlias, h1, h2, Option.orElse]

/-- C4 auxiliary closed instance exercising the fallthrough conjunct of
the contract at a concrete page. -/
theorem triggerDispatch_contract_witness :
    selectedAlias ⟨[("other", false), ("fn_pay", false)], []⟩ = some ("fn_pay", false) :=
  (triggerDispatch_contract ⟨[("other", false), ("fn_pay", false)], []⟩).2.2.2
    ("fn_pay", false) (by decide) (by decide)

/-! ## Claims about the orchestrator's exit status -/

/-- C1: `main` exits 0 exactly when the session launches, the login and
reservation fetches succeed and pass their HTTP checks, order-id
extraction succeeds, and the trigger dispatch returns `function` or
`click`; the exit status is always 0 or 1; and the popup-wait outcome
(found vs. timeout, which is caught and only logged) never changes the
exit status. -/
theorem main_exit_status (env : RunEnv) :
    ((mainRun env).1 = 0 ↔
      env.launchOk = true ∧
      (∃ s, env.loginResult = .ok s ∧ ensure_success "Login request" s = .ok ()) ∧
      (∃ r, env.reservationResult = .ok r ∧
        ensure_success "Reservation request" r.1 = .ok () ∧
        ∃ oid, extract_order_id r.2 = .ok oid) ∧
      (triggerDispatch env.page = "function" ∨ triggerDispatch env.page = "click")) ∧
    ((mainRun env).1 = 0 ∨ (mainRun env).1 = 1) ∧
    (∀ b : Bool,
      (mainRun ⟨env.launchOk, env.loginResult, env.reservationResult, env.page, b,
        env.skipOrderWait⟩).1 = (mainRun env).1) := by
  obtain ⟨lk, lr, rr, pg, pf, sk⟩ := env
  have sw1 : startsWithStr "function" "error:" = false := by decide
  have sw2 : startsWithStr "click" "error:" = false := by decide
  have sw3 : startsWithStr "notfound" "error:" = false := by decide
  have sw4 : startsWithStr "error:fn" "error:" = true := by decide
  have sw5 : startsWithStr "error:click" "error:" = true := by decide
  refine ⟨?_, ?_, fun b => rfl⟩ <;>
  · cases lk with
    | false => simp [mainRun]
    | true =>
      cases lr with
      | error e => simp [mainRun]
      | ok s =>
        cases hE : ensure_success "Login request" s with
        | error m => simp [mainRun, hE]
        | ok u =>
          cases u
          cases rr with
          | error e2 => simp [mainRun, hE]
          | ok r =>
            obtain ⟨rs, rh⟩ := r
            cases hR : ensure_success "Reservation request" rs with
            | error m2 => simp [mainRun, hE, hR]
            | ok u2 =>
              cases u2
              cases hX : extract_order_id rh with
              | error m3 => simp [mainRun, hE, hR, hX]
              | ok oid =>
                rcases triggerDispatch_forms pg with h | h | h | h | h <;>
                  simp [mainRun, hE, hR, hX, h, sw1, sw2, sw3, sw4, sw5]

/-- C3: past a launch, login, and reservation that all succeed, a
reservation response containing no `ordr_idxx` input makes extraction
fail with the `FieldNotFound` error; the run exits 1 and the
payment-trigger stage (and everything after it) is never entered. -/
theorem extract_failure_aborts_run (env : RunEnv) (s : Option Int) (r : Option Int × Doc)
    (hL : env.launchOk = true)
    (h1 : env.loginResult = .ok s)
    (h2 : ensure_success "Login request" s = .ok ())
    (h3 : env.reservationResult = .ok r)
    (h4 : ensure_success "Reservation request" r.1 = .ok ())
    (h5 : ∀ t ∈ r.2, isOrdrInput t = false) :
    extract_order_id r.2 = .error fieldNotFoundMsg ∧
    (mainRun env).1 = 1 ∧
    Stage.triggerPayment ∉ (mainRun env).2 ∧
    Stage.awaitPopup ∉ (mainRun env).2 := by
  have hX : extract_order_id r.2 = .error fieldNotFoundMsg := by
    unfold extract_order_id
    rw [parseOrderId_eq, ordrValues_no_match r.2 h5]
    rfl
  obtain ⟨lk, lr, rr, pg, pf, sk⟩ := env
  obtain ⟨rs, rh⟩ := r
  cases hL
  cases h1
  cases h3
  refine ⟨hX, ?_, ?_, ?_⟩ <;> simp [mainRun, h2, h4, hX]

/-- C3 witness: a concrete successful run prefix whose reservation HTML
has no `ordr_idxx` input. -/
theorem extract_failure_aborts_run_witness :
    extract_order_id [("div", []), ("form", [("id", some "order_form")])] =
      .error fieldNotFoundMsg ∧
    (mainRun ⟨true, .ok (some 200),
      .ok (some 200, [("div", []), ("form", [("id", some "order_form")])]),
      ⟨[("fnPay", false)], []⟩, true, true⟩).1 = 1 ∧
    Stage.triggerPayment ∉ (mainRun ⟨true, .ok (some 200),
      .ok (some 200, [("div", []), ("form", [("id", some "order_form")])]),
      ⟨[("fnPay", false)], []⟩, true, true⟩).2 ∧
    Stage.awaitPopup ∉ (mainRun ⟨true, .ok (some 200),
      .ok (some 200, [("div", []), ("form", [("id", some "order_form")])]),
      ⟨[("fnPay", false)], []⟩, true, true⟩).2 :=
  extract_failure_aborts_run
    ⟨true, .ok (some 200),
      .ok (some 200, [("div", []), ("form", [("id", some "order_form")])]),
      ⟨[("fnPay", false)], []⟩, true, true⟩
    (some 200) (some 200, [("div", []), ("form", [("id", some "order_form")])])
    (by decide) (by decide) (by decide) (by decide) (by decide) (by decide)

end Goyang
